import Mathlib

/-!
Shallow embedding of the ogimet-scraper ingestion pipeline
(`src/utils.py`, `src/db/sqlite.py`, `main.py`), together with theorems
settling the specification claims about it.

Conventions of the embedding:
* machine floats are modelled as rationals (`ℚ`); Python's `float(str)`
  is modelled for finite decimal/exponent literals (non-finite literals
  such as `inf`/`nan` and digit underscores are outside the model),
* fallible Python code returns `Option`/`Except`,
* HTML pages are modelled after BeautifulSoup extraction: a page is the
  two header rows (cell texts of the `th` cells) plus the data rows
  (cell texts of the `td` cells).  The `onmouseover` caption branch of
  the station cell is not modelled: the modelled branch is the plain
  `cells[0].text.strip()` label, which carries the same downstream
  processing.
-/

namespace Ogimet

/-- Whitespace stripping of both ends of a string, modelling Python's
`str.strip()` / the `.strip()` calls on cell texts (implemented over the
character list so that it reduces inside the kernel). -/
def pyStrip (s : String) : String :=
  ((s.toList.dropWhile Char.isWhitespace).reverse.dropWhile Char.isWhitespace).reverse.asString

/-- Split a character list at every occurrence of `sep`, modelling
Python's `str.split(sep)` for a one-character separator. -/
def splitChar (sep : Char) : List Char → List (List Char)
  | [] => [[]]
  | c :: rest =>
    match splitChar sep rest with
    | [] => [[c]]
    | g :: gs => if c = sep then [] :: g :: gs else (c :: g) :: gs

/-- Python `s.split(sep)` for a one-character separator, at `String` level. -/
def pySplit (s : String) (sep : Char) : List String :=
  (splitChar sep s.toList).map List.asString

/-- `null_if_empty` from `src/utils.py`: the literal empty markers
(blank, and runs of 3 to 5 dashes) map to `None`. -/
def null_if_empty (value : String) : Option String :=
  if value ∈ ["", "-----", "----", "---"] then none else some value

/-- Numeric value of a list of decimal digit characters. -/
def natOfDigits (cs : List Char) : Nat :=
  cs.foldl (fun a c => a * 10 + (c.toNat - 48)) 0

/-- Consume an optional leading sign; returns (isNegative, rest). -/
def takeSign : List Char → Bool × List Char
  | '+' :: cs => (false, cs)
  | '-' :: cs => (true, cs)
  | cs => (false, cs)

/-- Unsigned mantissa of a Python float literal — digits with an
optional decimal point, at least one digit overall — as the pair
(digit value, number of fractional digits), denoting value / 10 ^ fracLen. -/
def floatMantissa (cs : List Char) : Option (Nat × Nat) :=
  match splitChar '.' cs with
  | [ip] =>
    if !ip.isEmpty && ip.all Char.isDigit then some (natOfDigits ip, 0) else none
  | [ip, fp] =>
    if (!ip.isEmpty || !fp.isEmpty) && ip.all Char.isDigit && fp.all Char.isDigit then
      some (natOfDigits (ip ++ fp), fp.length)
    else none
  | _ => none

/-- Signed integer from a sign flag and a magnitude. -/
def intSign (neg : Bool) (n : Nat) : Int := if neg then -(n : Int) else (n : Int)

/-- Model of Python's `float(str)` on finite decimal literals: optional
surrounding whitespace, optional sign, digits with an optional decimal
point, optional case-insensitive exponent.  Returns `none` where Python
raises `ValueError`.  (The result is assembled with one `mkRat`, the
exact rational value of the literal.) -/
def pyFloat (s : String) : Option ℚ :=
  let cs := (pyStrip s).toList.map Char.toLower
  match splitChar 'e' cs with
  | [mc] =>
    let (neg, mc₂) := takeSign mc
    (floatMantissa mc₂).map (fun p => mkRat (intSign neg p.1) (10 ^ p.2))
  | [mc, ec] => do
    let (neg, mc₂) := takeSign mc
    let p ← floatMantissa mc₂
    let (eneg, ec₂) := takeSign ec
    if !ec₂.isEmpty && ec₂.all Char.isDigit then
      let e := natOfDigits ec₂
      some (if eneg then mkRat (intSign neg p.1) (10 ^ (p.2 + e))
            else mkRat (intSign neg (p.1 * 10 ^ e)) (10 ^ p.2))
    else none
  | _ => none

/-- `parse_numeric` from `src/utils.py`: empty-marker normalization then
float parsing; total, every failure is `none`. -/
def parse_numeric (value : String) : Option ℚ :=
  match null_if_empty value with
  | none => none
  | some v => pyFloat v

/-- The semantic field tags of the column schema (the keys ever inserted
into `column_map` in `get_column_mapping`). -/
inductive Field where
  | station
  | temp_max
  | temp_min
  | temp_med
  | dew_point
  | humidity
  | wind_dir
  | wind_speed
  | wind_gust
  | pressure
  | precipitation
  | total_cloud
  | low_cloud
  | sun_duration
  | visibility
  | snow_depth
  | weather_summary
deriving DecidableEq, Repr

/-- `column_map` as an insertion-ordered dictionary (Python `dict`):
an association list with at most one entry per field. -/
abbrev ColumnMap := List (Field × Nat)

/-- Python `dict` assignment `m[f] = i`: overwrite in place if the key
exists, else append. -/
def dictInsert (m : ColumnMap) (f : Field) (i : Nat) : ColumnMap :=
  if m.any (fun p => decide (p.1 = f)) then
    m.map (fun p => if p.1 = f then (f, i) else p)
  else m ++ [(f, i)]

/-- Lookup `column_map[f]` (`f in column_map` is `(lookupCol m f).isSome`). -/
def lookupCol (m : ColumnMap) (f : Field) : Option Nat :=
  (m.find? (fun p => decide (p.1 = f))).map Prod.snd

/-- The single-column known titles of the `expected` table in
`get_column_mapping` and the field each one is assigned to. -/
def singleField (title : String) : Option Field :=
  if title = "Station" then some Field.station
  else if title = "Td.Med(C)" then some Field.dew_point
  else if title = "Hr.Med(%)" then some Field.humidity
  else if title = "Pres.s.lev(Hp)" then some Field.pressure
  else if title = "Prec.(mm)" then some Field.precipitation
  else if title = "TotClOct" then some Field.total_cloud
  else if title = "LowClOct" then some Field.low_cloud
  else if title = "SunD-1(h)" then some Field.sun_duration
  else if title = "VisKm" then some Field.visibility
  else if title = "SnowDep.(cm)" then some Field.snow_depth
  else if title = "Dailyweather summary" then some Field.weather_summary
  else none

/-- Canonical expected subtitles of the temperature group. -/
def tempPairs : List (String × Field) :=
  [("Max", Field.temp_max), ("Min", Field.temp_min), ("Med", Field.temp_med)]

/-- Canonical expected subtitles of the wind group. -/
def windPairs : List (String × Field) :=
  [("Dir.", Field.wind_dir), ("Int.", Field.wind_speed), ("Gust", Field.wind_gust)]

/-- Walk of one multi-column group: for each expected subtitle in
canonical order, if its name appears anywhere in the subtitle row,
assign the field at the current cursor and advance; a missing subtitle
reserves no index. -/
def groupFold (subtitleRow : List String) (pairs : List (String × Field))
    (acc : ColumnMap × Nat) : ColumnMap × Nat :=
  pairs.foldl
    (fun acc p =>
      if p.1 ∈ subtitleRow then (dictInsert acc.1 p.2 acc.2, acc.2 + 1) else acc)
    acc

/-- One step of the title-row walk of `get_column_mapping`: a known
multi-column title runs its group walk, a known single-column title
assigns its field and advances, an unknown title only advances. -/
def stepTitle (subtitleRow : List String) (acc : ColumnMap × Nat) (title : String) :
    ColumnMap × Nat :=
  if title = "Temperature(C)" then groupFold subtitleRow tempPairs acc
  else if title = "Wind(km/h)" then groupFold subtitleRow windPairs acc
  else
    match singleField title with
    | some f => (dictInsert acc.1 f acc.2, acc.2 + 1)
    | none => (acc.1, acc.2 + 1)

/-- The raw field-to-index mapping accumulated by the header walk of
`get_column_mapping`, before the size and contiguity validation. -/
def rawWalk (titleRow subtitleRow : List String) : ColumnMap :=
  (titleRow.foldl (stepTitle subtitleRow) ([], 0)).1

/-- Boolean form of Python's `set(range(n)) == set(vals)`. -/
def setEqRange (vals : List Nat) (n : Nat) : Bool :=
  (List.range n).all (fun i => vals.contains i) && vals.all (fun v => v < n)

/-- The assigned column indices of a mapping (`column_map.values()`). -/
def mapVals (m : ColumnMap) : List Nat := m.map Prod.snd

/-- `max(column_map.values())` (the source only takes it on a mapping of
at least two entries, where the fold over `Nat.max` agrees with it). -/
def mapMax (m : ColumnMap) : Nat := (mapVals m).foldl Nat.max 0

/-- `get_column_mapping` from `src/utils.py`: header walk, then the
"fewer than two fields" empty-mapping exit, then the contiguity
validation whose failure is raised (the bare `raise`, modelled as an
`Except.error`). -/
def get_column_mapping (titleRow subtitleRow : List String) : Except String ColumnMap :=
  if (rawWalk titleRow subtitleRow).length < 2 then Except.ok []
  else if setEqRange (mapVals (rawWalk titleRow subtitleRow))
      (mapMax (rawWalk titleRow subtitleRow) + 1) then
    Except.ok (rawWalk titleRow subtitleRow)
  else Except.error "Invalid column mapping - missing indices"

/-- `WeatherData` from `src/utils.py` (pydantic model): each optional
measurement defaults to `None`. -/
structure WeatherData where
  date : String
  time : String
  station_id : String
  station_name : String
  temp_max : Option ℚ
  temp_min : Option ℚ
  temp_med : Option ℚ
  wind_dir : Option String
  wind_speed : Option ℚ
  wind_gust : Option ℚ
  pressure : Option ℚ
  precipitation : Option ℚ
  total_cloud : Option ℚ
  low_cloud : Option ℚ
  sun_duration : Option ℚ
  visibility : Option ℚ
  humidity : Option ℚ
  dew_point : Option ℚ
  weather_summary : Option String
  snow_depth : Option ℤ
deriving DecidableEq, Repr

/-- Station label splitting of `parse_ogimet_data`
(`station.split("-")[0].strip()` / `station.split("-")[1].strip()`):
the first two dash-separated segments, trimmed; fewer than two segments
is the `IndexError` path, `none`. -/
def splitStation (station : String) : Option (String × String) :=
  match pySplit station '-' with
  | p₀ :: p₁ :: _ => some (pyStrip p₀, pyStrip p₁)
  | _ => none

/-- The fields extracted per row by `parse_ogimet_data`, in source
order.  `station` and `weather_summary` have no extraction block. -/
def extractedFields : List Field :=
  [Field.temp_max, Field.temp_min, Field.temp_med, Field.humidity, Field.dew_point,
   Field.wind_dir, Field.wind_speed, Field.wind_gust, Field.pressure,
   Field.precipitation, Field.total_cloud, Field.low_cloud, Field.sun_duration,
   Field.visibility, Field.snow_depth]

/-- Value of a numeric field of one row: present in `row_data` only if the
schema maps the field, parsed from the stripped cell text. -/
def numAt (m : ColumnMap) (cells : List String) (f : Field) : Option ℚ :=
  match lookupCol m f with
  | none => none
  | some i => parse_numeric (pyStrip (cells.getD i ""))

/-- Value of a text field of one row (wind direction). -/
def strAt (m : ColumnMap) (cells : List String) (f : Field) : Option String :=
  match lookupCol m f with
  | none => none
  | some i => null_if_empty (pyStrip (cells.getD i ""))

/-- Number of keys of `row_data` beyond `date`/`time`: the two station
fields plus one key per extracted field the schema maps. -/
def rowDataLen (m : ColumnMap) : Nat :=
  2 + (extractedFields.filter (fun f => (lookupCol m f).isSome)).length

/-- The snow-depth value of the constructed record: the parsed float is
coerced to int (pydantic v2 lax coercion: exact for integral values, a
`ValidationError` — the outer `none` — otherwise). -/
def snowVal (m : ColumnMap) (cells : List String) : Option (Option ℤ) :=
  match lookupCol m Field.snow_depth with
  | none => some none
  | some i =>
    match parse_numeric (pyStrip (cells.getD i "")) with
    | none => some none
    | some q => if q.den = 1 then some (some q.num) else none

/-- Construction of the `WeatherData` pydantic model from one row's
values; `none` is a `ValidationError`, the caught-and-skipped path of
the row loop. -/
def mkRecord (m : ColumnMap) (qd qt sid sname : String) (cells : List String) :
    Option WeatherData :=
  match snowVal m cells with
  | none => none
  | some sd =>
    some
      { date := qd, time := qt, station_id := sid, station_name := sname
        temp_max := numAt m cells Field.temp_max
        temp_min := numAt m cells Field.temp_min
        temp_med := numAt m cells Field.temp_med
        wind_dir := strAt m cells Field.wind_dir
        wind_speed := numAt m cells Field.wind_speed
        wind_gust := numAt m cells Field.wind_gust
        pressure := numAt m cells Field.pressure
        precipitation := numAt m cells Field.precipitation
        total_cloud := numAt m cells Field.total_cloud
        low_cloud := numAt m cells Field.low_cloud
        sun_duration := numAt m cells Field.sun_duration
        visibility := numAt m cells Field.visibility
        humidity := numAt m cells Field.humidity
        dew_point := numAt m cells Field.dew_point
        weather_summary := none
        snow_depth := sd }

/-- Outcome of the body of the row loop of `parse_ogimet_data` for one
row: `skip` is `continue`, `halt` is the cross-check `break`,
`emit` appends one record to the batch. -/
inductive RowStep where
  | skip
  | halt
  | emit (w : WeatherData)

/-- The body of the row loop of `parse_ogimet_data` for one data row. -/
def extractRow (m : ColumnMap) (qd qt : String) (cells : List String) : RowStep :=
  if cells.length < m.length then RowStep.skip
  else
    match null_if_empty (pyStrip (cells.getD 0 "")) with
    | none => RowStep.skip
    | some station =>
      if station = "Summary" then RowStep.skip
      else
        match splitStation station with
        | none => RowStep.skip
        | some (sid, sname) =>
          if rowDataLen m ≠ m.length then RowStep.halt
          else
            match mkRecord m qd qt sid sname cells with
            | none => RowStep.skip
            | some w => RowStep.emit w

/-- The row loop of `parse_ogimet_data`: `continue` keeps going, `break`
keeps the rows extracted so far and discards the rest. -/
def processRows (m : ColumnMap) (qd qt : String) : List (List String) → List WeatherData
  | [] => []
  | cells :: rest =>
    match extractRow m qd qt cells with
    | RowStep.skip => processRows m qd qt rest
    | RowStep.halt => []
    | RowStep.emit w => w :: processRows m qd qt rest

/-- A located weather data table: the two header rows (`th` cell texts)
and the data rows (`td` cell texts; rows without `td` cells are dropped
by the `len(cells) < len(column_map)` guard in the source and carry no
information, so they are omitted from the model). -/
structure Page where
  titleRow : List String
  subtitleRow : List String
  dataRows : List (List String)
deriving Repr

/-- `parse_ogimet_data` from `src/utils.py`.  `none` is a page with no
data table (empty result, no error); a schema-fatal error from
`get_column_mapping` propagates. -/
def parse_ogimet_data (qd qt : String) (page : Option Page) :
    Except String (List WeatherData) :=
  match page with
  | none => Except.ok []
  | some p =>
    match get_column_mapping p.titleRow p.subtitleRow with
    | Except.error e => Except.error e
    | Except.ok m =>
      if m.length = 0 then Except.ok []
      else Except.ok (processRows m qd qt p.dataRows)

/-- Test fixture: the column mapping resolved from the header
`Station | Temperature(C) (Max, Min, Med) | Dailyweather summary`. -/
def mapTempSummary : ColumnMap :=
  [(Field.station, 0), (Field.temp_max, 1), (Field.temp_min, 2), (Field.temp_med, 3),
   (Field.weather_summary, 4)]

/-- Test fixture: the column mapping resolved from the header
`Station | Temperature(C) (Max, Min, Med) | SnowDep.(cm) | Dailyweather summary`. -/
def mapTempSnowSummary : ColumnMap :=
  [(Field.station, 0), (Field.temp_max, 1), (Field.temp_min, 2), (Field.temp_med, 3),
   (Field.snow_depth, 4), (Field.weather_summary, 5)]

/-! ### Calendar model (`create_date_range`, `get_missing_dates`) -/

/-- A calendar date, modelling the (year, month, day) of the Python
`datetime.datetime` values produced by `strptime(.., "%Y-%m-%d")`. -/
structure Date where
  year : Nat
  month : Nat
  day : Nat
deriving DecidableEq, Repr

/-- Gregorian leap year, as in Python's calendar arithmetic. -/
def isLeap (y : Nat) : Prop := (y % 4 = 0 ∧ y % 100 ≠ 0) ∨ y % 400 = 0

instance : DecidablePred isLeap := fun y => by unfold isLeap; infer_instance

/-- Days in a month of the proleptic Gregorian calendar. -/
def daysInMonth (y m : Nat) : Nat :=
  if m = 2 then (if isLeap y then 29 else 28)
  else if m = 4 ∨ m = 6 ∨ m = 9 ∨ m = 11 then 30 else 31

/-- A date `strptime` can produce: month 1–12, day within the month. -/
def Date.Valid (d : Date) : Prop :=
  1 ≤ d.year ∧ 1 ≤ d.month ∧ d.month ≤ 12 ∧ 1 ≤ d.day ∧ d.day ≤ daysInMonth d.year d.month

instance : DecidablePred Date.Valid := fun d => by unfold Date.Valid; infer_instance

/-- The day after `d` in the Gregorian calendar. -/
def nextDay (d : Date) : Date :=
  if d.day < daysInMonth d.year d.month then ⟨d.year, d.month, d.day + 1⟩
  else if d.month < 12 then ⟨d.year, d.month + 1, 1⟩
  else ⟨d.year + 1, 1, 1⟩

/-- `d + datetime.timedelta(days=n)`. -/
def addDays : Nat → Date → Date
  | 0, d => d
  | n + 1, d => addDays n (nextDay d)

/-- Days in the years before year `y` (CPython's `_days_before_year`). -/
def daysBeforeYear (y : Nat) : Nat :=
  (y - 1) * 365 + (y - 1) / 4 - (y - 1) / 100 + (y - 1) / 400

/-- Days in the first `m` months of year `y`. -/
def daysBeforeMonth (y : Nat) : Nat → Nat
  | 0 => 0
  | m + 1 => daysBeforeMonth y m + daysInMonth y (m + 1)

/-- `datetime.date.toordinal`: day 1 is January 1 of year 1. -/
def toOrdinal (d : Date) : Nat :=
  daysBeforeYear d.year + daysBeforeMonth d.year (d.month - 1) + d.day

/-- Two-digit zero padding of `strftime`'s `%m` / `%d`. -/
def pad2 (n : Nat) : String := if n < 10 then "0" ++ toString n else toString n

/-- `date.strftime("%Y-%m-%d")` (glibc leaves `%Y` unpadded). -/
def dateStr (d : Date) : String :=
  toString d.year ++ "-" ++ pad2 d.month ++ "-" ++ pad2 d.day

/-- `create_date_range` from `src/utils.py`, after `strptime` has
produced the endpoint dates: without an end date the range is the single
start date; an end date before the start date is a `ValueError`;
otherwise the range is `start + timedelta(days=x)` for
`x in range((end - start).days + 1)`, where datetime subtraction and
comparison act on the ordinals. -/
def create_date_range (startD : Date) (endOpt : Option Date) : Except String (List Date) :=
  match endOpt with
  | none => Except.ok [startD]
  | some endD =>
    if toOrdinal endD < toOrdinal startD then
      Except.error "End date cannot be before start date"
    else
      Except.ok ((List.range (toOrdinal endD - toOrdinal startD + 1)).map
        (fun x => addDays x startD))

/-- `get_missing_dates` from `src/utils.py`: the range dates whose
`"%Y-%m-%d"` string is not among the stored distinct dates. -/
def get_missing_dates (startD : Date) (endOpt : Option Date) (existing : List String) :
    Except String (List Date) :=
  match create_date_range startD endOpt with
  | Except.error e => Except.error e
  | Except.ok r => Except.ok (r.filter (fun d => !(existing.contains (dateStr d))))

/-! ### Store model (`src/db/sqlite.py`) -/

/-- The primary key of the `weather_data` table: (date, time, station_id). -/
abbrev RowKey := String × String × String

/-- Key of one observation. -/
def wkey (w : WeatherData) : RowKey := (w.date, w.time, w.station_id)

/-- The `weather_data` table, abstracted by its primary key: the
`PRIMARY KEY (date, time, station_id)` constraint keeps at most one row
per key, so the table state is a keyed partial map.  The wall-clock
`_updated_at` default column is outside the model. -/
abbrev Store := RowKey → Option WeatherData

/-- The store with no rows. -/
def emptyStore : Store := fun _ => none

/-- Effect of `INSERT OR REPLACE` of a single record. -/
def insertOrReplace (s : Store) (w : WeatherData) : Store :=
  fun k => if k = wkey w then some w else s k

/-- `insert_weather_data` from `src/db/sqlite.py`: `executemany` of
`INSERT OR REPLACE`, one statement per record in batch order. -/
def insert_weather_data (s : Store) (batch : List WeatherData) : Store :=
  batch.foldl insertOrReplace s

/-- The last record of a batch with the given key, if any (the "latest
write" for that key). -/
def lastWrite (k : RowKey) : List WeatherData → Option WeatherData
  | [] => none
  | w :: t =>
    match lastWrite k t with
    | some v => some v
    | none => if k = wkey w then some w else none

/-! ### Orchestrator model (`fetch_and_parse_data`, `main.summary`) -/

/-- Outcome of the external fetch collaborator for one date:
`html` is a response whose parsed document may or may not contain the
data table; `raised` is a transport failure surfaced by
`fetch_ogimet_data` (timeout after its single retry, or any other
request error, which the source re-raises). -/
inductive FetchResult where
  | html (page : Option Page)
  | raised (e : String)

/-- `fetch_and_parse_data` from `src/utils.py` for one date, given the
fetch outcome: fetch errors and schema-fatal parse errors propagate
(nothing catches them there); only the database insert is wrapped in a
`try`/`except`, so a task reaching the insert always succeeds. -/
def fetch_and_parse_data (store : Store) (qd qt : String) (fr : FetchResult) :
    Except String Store :=
  match fr with
  | FetchResult.raised e => Except.error e
  | FetchResult.html page =>
    match parse_ogimet_data qd qt page with
    | Except.error e => Except.error e
    | Except.ok batch =>
      if batch.isEmpty then Except.ok store
      else Except.ok (insert_weather_data store batch)

/-- A task's outcome as seen by `future.result()` in `main.summary`. -/
def taskResult (store : Store) (qd qt : String) (fr : FetchResult) : Except String Unit :=
  match fetch_and_parse_data store qd qt fr with
  | Except.error e => Except.error e
  | Except.ok _ => Except.ok ()

/-- The result-collection loop of `main.summary`
(`for future in progress: future.result()`), over the task results in
completion order: `future.result()` re-raises a failed task's exception,
which aborts the loop; no tally of successes or failures is kept. -/
def collect_results : List (Except String Unit) → Except String Unit
  | [] => Except.ok ()
  | r :: rest =>
    match r with
    | Except.error e => Except.error e
    | Except.ok _ => collect_results rest

/-! ## Theorems -/

/-- C8: the numeric-field parser is total and never raises (it is a
total function into `Option`): each empty-marker string — the blank
string and the runs of 3 to 5 dashes — yields absent, a floating-point
literal such as "12.3" yields its value 12.3, and a non-numeric string
such as "abc" yields absent. -/
theorem C8_parse_numeric_total :
    (∀ s ∈ ["", "---", "----", "-----"], parse_numeric s = none) ∧
    parse_numeric "12.3" = some (123 / 10 : ℚ) ∧
    parse_numeric "abc" = none := by
  refine ⟨by decide, ?_, by decide⟩
  have h : parse_numeric "12.3" = some (mkRat 123 10) := by decide
  have h₂ : (mkRat 123 10 : ℚ) = 123 / 10 := by
    rw [Rat.mkRat_eq_div]; norm_num
  rw [h, h₂]

/-- C8 witness: the dash run of the spec example evaluates to absent. -/
theorem C8_witness : parse_numeric "-----" = none :=
  C8_parse_numeric_total.1 "-----" (by decide)

/-- C1 counterexample: the exact page of the claim — a two-row header of
one temperature group (subtitles Max, Min, Med) and one single-column
Station title, plus one well-formed data row — yields an empty batch,
not one observation: the row-width cross-check fails (the station label
contributes two record fields against one schema entry) and the row is
discarded. -/
theorem C1_counterexample :
    parse_ogimet_data "2024-01-01" "12:00"
      (some ⟨["Station", "Temperature(C)"], ["Max", "Min", "Med"],
        [["12345 - Jakarta", "30.1", "22.2", "25.9"]]⟩) = Except.ok [] := by
  rfl

set_option maxHeartbeats 1600000 in
/-- C1 amended: with the daily-weather-summary column also present in
the header (which rebalances the row-width cross-check, since the
summary column is mapped but never extracted), one well-formed data row
yields exactly one observation whose temp_max/min/med are the parsed
values of the corresponding cells and whose station id and name are the
trimmed first two dash-separated parts of the station label. -/
theorem C1_amended (qd qt a b c sm : String) :
    parse_ogimet_data qd qt
      (some ⟨["Station", "Temperature(C)", "Dailyweather summary"], ["Max", "Min", "Med"],
        [["12345 - Jakarta", a, b, c, sm]]⟩)
    = Except.ok
        [{ date := qd, time := qt, station_id := "12345", station_name := "Jakarta"
           temp_max := parse_numeric (pyStrip a)
           temp_min := parse_numeric (pyStrip b)
           temp_med := parse_numeric (pyStrip c)
           wind_dir := none, wind_speed := none, wind_gust := none, pressure := none
           precipitation := none, total_cloud := none, low_cloud := none
           sun_duration := none, visibility := none, humidity := none, dew_point := none
           weather_summary := none, snow_depth := none }] := by
  rfl

/-- C4 counterexample: a station name containing a further separator is
not kept whole — the extraction takes `split("-")[1]`, the segment
between the first and the second dash, so "12345 - Jakarta-Selatan"
does not yield the name "Jakarta-Selatan". -/
theorem C4_counterexample :
    splitStation "12345 - Jakarta-Selatan" ≠ some ("12345", "Jakarta-Selatan") := by
  decide

/-- C4 amended: extraction splits the station label on the separator and
keeps the first two trimmed segments — id before the first separator,
name between the first and second separator (text after a second
separator is dropped); "12345 - Jakarta" gives id "12345" and name
"Jakarta"; a label with no separator makes only that row skipped, and
extraction of the remaining rows continues. -/
theorem C4_amended (qd qt : String) :
    (∀ (s : String) (p₀ p₁ : String) (ps : List String),
      pySplit s '-' = p₀ :: p₁ :: ps → splitStation s = some (pyStrip p₀, pyStrip p₁)) ∧
    (∀ (s p₀ : String), pySplit s '-' = [p₀] → splitStation s = none) ∧
    splitStation "12345 - Jakarta" = some ("12345", "Jakarta") ∧
    (∀ rest, processRows mapTempSummary qd qt
        (["NoSeparator", "1", "2", "3", "x"] :: rest) = processRows mapTempSummary qd qt rest) := by
  refine ⟨?_, ?_, by decide, fun rest => rfl⟩
  · intro s p₀ p₁ ps h
    unfold splitStation
    rw [h]
  · intro s p₀ h
    unfold splitStation
    rw [h]

/-- C4 witness: the two splitting branches and the skip-and-continue
branch at concrete inputs. -/
theorem C4_witness :
    splitStation "96749 - Jakarta - Observatory" = some ("96749", "Jakarta") ∧
    splitStation "96749" = none ∧
    processRows mapTempSummary "2024-01-01" "12:00" [["NoSeparator", "1", "2", "3", "x"]]
      = processRows mapTempSummary "2024-01-01" "12:00" [] := by
  exact ⟨(C4_amended "2024-01-01" "12:00").1 "96749 - Jakarta - Observatory"
      "96749 " " Jakarta " [" Observatory"] (by rfl),
    (C4_amended "2024-01-01" "12:00").2.1 "96749" "96749" (by rfl),
    (C4_amended "2024-01-01" "12:00").2.2.2 []⟩

/-- One collection-loop step over a succeeded task. -/
theorem collect_results_ok_cons (t : List (Except String Unit)) :
    collect_results (Except.ok () :: t) = collect_results t := rfl

/-- C2 counterexample: a run containing one failed task (transport
failure surfaced after the retry) and one succeeded task aborts with
the task's exception when `future.result()` re-raises it — it does not
complete with a success/failure tally. -/
theorem C2_counterexample :
    collect_results
      [taskResult emptyStore "2024-01-01" "12:00" (FetchResult.raised "Request timed out"),
       Except.ok ()]
    = Except.error "Request timed out" := rfl

/-- C2 amended: the orchestrator keeps no tally and does not isolate
task failures at collection time — a run whose tasks all succeed
completes, and a run containing a failed task aborts with the first
failed task's exception (in completion order) re-raised by
`future.result()`. -/
theorem C2_amended (pre post : List (Except String Unit)) (e : String)
    (hpre : ∀ r ∈ pre, r = Except.ok ()) :
    collect_results pre = Except.ok () ∧
    collect_results (pre ++ Except.error e :: post) = Except.error e := by
  induction pre with
  | nil => exact ⟨rfl, rfl⟩
  | cons r t ih =>
    have hr : r = Except.ok () := hpre r (by simp)
    obtain ⟨ih₁, ih₂⟩ := ih (fun x hx => hpre x (by simp [hx]))
    subst hr
    rw [List.cons_append, collect_results_ok_cons, collect_results_ok_cons]
    exact ⟨ih₁, ih₂⟩

/-- C2 witness: one succeeded task before and after the failure. -/
theorem C2_witness :
    collect_results [Except.ok ()] = Except.ok () ∧
    collect_results ([Except.ok ()] ++ Except.error "Request timed out" :: [Except.ok ()])
      = Except.error "Request timed out" :=
  C2_amended [Except.ok ()] [Except.ok ()] "Request timed out"
    (fun _ hr => List.mem_singleton.mp hr)

/-- Characterization of the contiguity check as set equality. -/
theorem setEqRange_true_iff (vals : List Nat) (n : Nat) :
    setEqRange vals n = true ↔ (∀ i < n, i ∈ vals) ∧ (∀ v ∈ vals, v < n) := by
  simp [setEqRange, List.all_eq_true, List.contains, List.elem_iff, List.mem_range]

/-- C3 counterexample: a header with a gap (an unknown title advances
the cursor without assigning an index) raises the schema-fatal error,
and the error does not abort that page only — the task propagates it
and the whole run aborts with it at result collection, with no tally. -/
theorem C3_counterexample :
    get_column_mapping ["Station", "Bogus", "Td.Med(C)"] []
      = Except.error "Invalid column mapping - missing indices" ∧
    collect_results
      [taskResult emptyStore "2024-01-01" "12:00"
        (FetchResult.html (some ⟨["Station", "Bogus", "Td.Med(C)"], [], []⟩))]
      = Except.error "Invalid column mapping - missing indices" := ⟨rfl, rfl⟩

/-- C3 amended: if the walk resolves fewer than two fields the resolver
returns the empty mapping (no error, the caller treats the page as
having no data); a non-empty returned mapping always has index set
exactly \x7b0 … max(indices)\x7d; and a gap raises a schema-fatal error
that aborts the page — but not the page only: nothing catches it in the
page parser or the per-date task, so it propagates and aborts the whole
run when the task's result is collected. -/
theorem C3_amended (t st : List String) :
    ((rawWalk t st).length < 2 → get_column_mapping t st = Except.ok []) ∧
    (∀ m, get_column_mapping t st = Except.ok m → m ≠ [] →
      ∀ i, i ∈ mapVals m ↔ i < mapMax m + 1) ∧
    (∀ e rows qd qt store, get_column_mapping t st = Except.error e →
      parse_ogimet_data qd qt (some ⟨t, st, rows⟩) = Except.error e ∧
      collect_results [taskResult store qd qt (FetchResult.html (some ⟨t, st, rows⟩))]
        = Except.error e) := by
  refine ⟨fun h => by rw [get_column_mapping, if_pos h], ?_, ?_⟩
  · intro m hm hne i
    rw [get_column_mapping] at hm
    by_cases h₁ : (rawWalk t st).length < 2
    · rw [if_pos h₁] at hm
      exact absurd (Except.ok.inj hm).symm hne
    · rw [if_neg h₁] at hm
      by_cases h₂ : setEqRange (mapVals (rawWalk t st)) (mapMax (rawWalk t st) + 1) = true
      · rw [if_pos h₂] at hm
        obtain rfl : rawWalk t st = m := Except.ok.inj hm
        obtain ⟨hall, hbound⟩ := (setEqRange_true_iff _ _).mp h₂
        exact ⟨fun hi => Nat.lt_succ_of_le (Nat.le_of_lt_succ (hbound i hi)), fun hi => hall i hi⟩
      · rw [if_neg h₂] at hm
        exact absurd hm (by simp)
  · intro e rows qd qt store h
    have hp : parse_ogimet_data qd qt (some ⟨t, st, rows⟩) = Except.error e := by
      rw [parse_ogimet_data, h]
    refine ⟨hp, ?_⟩
    have ht : taskResult store qd qt (FetchResult.html (some ⟨t, st, rows⟩))
        = Except.error e := by
      rw [taskResult, fetch_and_parse_data, hp]
    rw [ht]
    rfl

/-- C3 witness: the empty-mapping branch on a one-field header, the
contiguity property on a resolved mapping, and the run-aborting
propagation of the schema error on a gapped header. -/
theorem C3_witness :
    get_column_mapping ["Station"] [] = Except.ok [] ∧
    ((0 : Nat) ∈ mapVals mapTempSummary ↔ (0 : Nat) < mapMax mapTempSummary + 1) ∧
    parse_ogimet_data "2024-01-01" "12:00"
      (some ⟨["Station", "Bogus", "Td.Med(C)"], [], []⟩)
      = Except.error "Invalid column mapping - missing indices" := by
  refine ⟨(C3_amended ["Station"] []).1 (by decide), ?_, ?_⟩
  · exact (C3_amended ["Station", "Temperature(C)", "Dailyweather summary"]
      ["Max", "Min", "Med"]).2.1 mapTempSummary (by rfl) (by decide) 0
  · exact ((C3_amended ["Station", "Bogus", "Td.Med(C)"] []).2.2
      "Invalid column mapping - missing indices" [] "2024-01-01" "12:00" emptyStore
      (by rfl)).1

/-- The group walk depends on the subtitle row only through membership. -/
theorem groupFold_congr {s₁ s₂ : List String} (h : ∀ x, x ∈ s₁ ↔ x ∈ s₂)
    (pairs : List (String × Field)) :
    ∀ acc, groupFold s₁ pairs acc = groupFold s₂ pairs acc := by
  induction pairs with
  | nil => intro acc; rfl
  | cons p rest ih =>
    intro acc
    rw [groupFold, List.foldl_cons, groupFold, List.foldl_cons]
    rw [if_congr (h p.1) rfl rfl]
    exact ih _

/-- One title step depends on the subtitle row only through membership. -/
theorem stepTitle_congr {s₁ s₂ : List String} (h : ∀ x, x ∈ s₁ ↔ x ∈ s₂)
    (acc : ColumnMap × Nat) (title : String) :
    stepTitle s₁ acc title = stepTitle s₂ acc title := by
  rw [stepTitle, stepTitle]
  by_cases h₁ : title = "Temperature(C)"
  · rw [if_pos h₁, if_pos h₁, groupFold_congr h]
  · rw [if_neg h₁, if_neg h₁]
    by_cases h₂ : title = "Wind(km/h)"
    · rw [if_pos h₂, if_pos h₂, groupFold_congr h]
    · rw [if_neg h₂, if_neg h₂]

/-- C6: the schema resolver tests each expected subtitle only for
membership anywhere in the subtitle row, so the resolved mapping — and
the whole resolver result, contiguity check included — is invariant
under any permutation of the subtitle row (it depends only on the set
of subtitle names present); missing subtitles reserve no index. -/
theorem C6_subtitle_membership_invariance (t s₁ s₂ : List String)
    (h : ∀ x, x ∈ s₁ ↔ x ∈ s₂) :
    rawWalk t s₁ = rawWalk t s₂ ∧
    get_column_mapping t s₁ = get_column_mapping t s₂ := by
  have hw : ∀ acc, t.foldl (stepTitle s₁) acc = t.foldl (stepTitle s₂) acc := by
    induction t with
    | nil => intro acc; rfl
    | cons a rest ih =>
      intro acc
      rw [List.foldl_cons, List.foldl_cons, stepTitle_congr h]
      exact ih _

  have hraw : rawWalk t s₁ = rawWalk t s₂ := by
    rw [rawWalk, rawWalk, hw]
  exact ⟨hraw, by rw [get_column_mapping, get_column_mapping, hraw]⟩

/-- C6 witness: a page that reorders the temperature group's subtitles
resolves to the same mapping as the canonical order. -/
theorem C6_witness :
    get_column_mapping ["Station", "Temperature(C)", "Dailyweather summary"]
      ["Max", "Min", "Med"]
    = get_column_mapping ["Station", "Temperature(C)", "Dailyweather summary"]
      ["Med", "Min", "Max"] :=
  (C6_subtitle_membership_invariance _ _ _
    (by intro x; simp only [List.mem_cons, List.not_mem_nil, or_false]; tauto)).2

/-- A constructed record always carries `weather_summary := none`. -/
theorem mkRecord_weather_summary {m : ColumnMap} {qd qt sid sname : String}
    {cells : List String} {w : WeatherData}
    (h : mkRecord m qd qt sid sname cells = some w) : w.weather_summary = none := by
  rw [mkRecord] at h
  cases hs : snowVal m cells with
  | none => rw [hs] at h; exact Option.noConfusion h
  | some sd =>
    simp only [hs, Option.some.injEq] at h
    rw [← h]

/-- A row that emits a record emits one built by `mkRecord`. -/
theorem extractRow_emit_summary {m : ColumnMap} {qd qt : String} {cells : List String}
    {w : WeatherData} (h : extractRow m qd qt cells = RowStep.emit w) :
    w.weather_summary = none := by
  rw [extractRow] at h
  repeat' split at h
  all_goals try exact RowStep.noConfusion h
  injection h with hw
  subst hw
  exact mkRecord_weather_summary (by assumption)

/-- Every record of the row loop has no weather summary. -/
theorem processRows_weather_summary (m : ColumnMap) (qd qt : String) :
    ∀ (rows : List (List String)) (w : WeatherData),
      w ∈ processRows m qd qt rows → w.weather_summary = none := by
  intro rows
  induction rows with
  | nil => intro w hw; simp [processRows] at hw
  | cons cells rest ih =>
    intro w hw
    rw [processRows] at hw
    cases he : extractRow m qd qt cells with
    | skip => simp only [he] at hw; exact ih w hw
    | halt => simp only [he] at hw; simp at hw
    | emit w' =>
      simp only [he] at hw
      rcases List.mem_cons.mp hw with rfl | hw'
      · exact extractRow_emit_summary he
      · exact ih w hw'

/-- C5: every observation of a parsed batch has `weather_summary`
absent — no extraction path populates it, even when the column mapping
assigns the daily-weather-summary column an index — so the summary text
of a source row is never carried into a persisted record. -/
theorem C5_weather_summary_absent (qd qt : String) (page : Option Page)
    (batch : List WeatherData) (h : parse_ogimet_data qd qt page = Except.ok batch)
    (w : WeatherData) (hw : w ∈ batch) : w.weather_summary = none := by
  cases page with
  | none =>
    rw [parse_ogimet_data] at h
    obtain rfl : ([] : List WeatherData) = batch := Except.ok.inj h
    simp at hw
  | some p =>
    rw [parse_ogimet_data] at h
    cases hm : get_column_mapping p.titleRow p.subtitleRow with
    | error e => rw [hm] at h; exact Except.noConfusion h
    | ok m =>
      simp only [hm] at h
      by_cases h₀ : m.length = 0
      · rw [if_pos h₀] at h
        obtain rfl : ([] : List WeatherData) = batch := Except.ok.inj h
        simp at hw
      · rw [if_neg h₀] at h
        obtain rfl := Except.ok.inj h
        exact processRows_weather_summary m qd qt p.dataRows w hw

/-- C5 witness: the record parsed from a page whose mapping includes the
daily-weather-summary column ends up with no weather summary. -/
theorem C5_witness :
    (WeatherData.mk "2024-01-01" "12:00" "1" "A" none none none none none none none none
      none none none none none none none none).weather_summary = none :=
  C5_weather_summary_absent "2024-01-01" "12:00"
    (some ⟨["Station", "Temperature(C)", "Dailyweather summary"], ["Max", "Min", "Med"],
      [["1 - A", "-----", "-----", "-----", "Rain"]]⟩)
    [WeatherData.mk "2024-01-01" "12:00" "1" "A" none none none none none none none none
      none none none none none none none none]
    (by rfl) _ (List.mem_singleton.mpr rfl)

/-- The upsert of a batch, looked up at a key, is the batch's latest
write for that key, else the previous store value. -/
theorem upsert_lookup (b : List WeatherData) :
    ∀ (s : Store) (k : RowKey),
      insert_weather_data s b k = (lastWrite k b).elim (s k) some := by
  induction b with
  | nil => intro s k; rfl
  | cons w t ih =>
    intro s k
    show insert_weather_data (insertOrReplace s w) t k = _
    rw [ih]
    cases hl : lastWrite k t with
    | some v => simp [lastWrite, hl]
    | none =>
      simp only [lastWrite, hl, insertOrReplace]
      by_cases hk : k = wkey w <;> simp [hk]

/-- C9: the keyed upsert is idempotent and last-write-wins — applying
the same batch twice leaves the store (one row per (date, time,
station_id) key) in the same state as applying it once, and each key
holds the batch's latest write for it, or its prior value if the batch
never writes it. -/
theorem C9_upsert_idempotent (s : Store) (b : List WeatherData) :
    insert_weather_data (insert_weather_data s b) b = insert_weather_data s b ∧
    ∀ k, insert_weather_data s b k = (lastWrite k b).elim (s k) some := by
  refine ⟨funext fun k => ?_, fun k => upsert_lookup b s k⟩
  rw [upsert_lookup b _ k]
  cases hl : lastWrite k b with
  | some v => rw [upsert_lookup b s k, hl]; simp
  | none => rw [upsert_lookup b s k, hl]; simp

/-- C10: on a page whose schema maps the snow-depth column, the
normalized and float-parsed snow-depth cell is coerced to an integer in
the constructed observation (exactly when the value is integral); a
value that still fails the integer construction makes only that row
skipped — the construction failure is caught and extraction of the
remaining rows continues — and an empty-marker cell yields an absent
snow depth. -/
theorem C10_snow_depth (qd qt v : String) (rest : List (List String)) :
    (∀ q : ℚ, parse_numeric (pyStrip v) = some q → q.den = 1 →
      processRows mapTempSnowSummary qd qt (["1 - A", "1", "2", "3", v, "x"] :: rest)
        = WeatherData.mk qd qt "1" "A" (some 1) (some 2) (some 3) none none none none none
            none none none none none none none (some q.num)
          :: processRows mapTempSnowSummary qd qt rest) ∧
    (∀ q : ℚ, parse_numeric (pyStrip v) = some q → q.den ≠ 1 →
      processRows mapTempSnowSummary qd qt (["1 - A", "1", "2", "3", v, "x"] :: rest)
        = processRows mapTempSnowSummary qd qt rest) ∧
    (parse_numeric (pyStrip v) = none →
      processRows mapTempSnowSummary qd qt (["1 - A", "1", "2", "3", v, "x"] :: rest)
        = WeatherData.mk qd qt "1" "A" (some 1) (some 2) (some 3) none none none none none
            none none none none none none none none
          :: processRows mapTempSnowSummary qd qt rest) := by
  have hsv : snowVal mapTempSnowSummary ["1 - A", "1", "2", "3", v, "x"]
      = (match parse_numeric (pyStrip v) with
         | none => some none
         | some q => if q.den = 1 then some (some q.num) else none) := rfl
  have h₁ : extractRow mapTempSnowSummary qd qt ["1 - A", "1", "2", "3", v, "x"]
      = match mkRecord mapTempSnowSummary qd qt "1" "A" ["1 - A", "1", "2", "3", v, "x"] with
        | none => RowStep.skip
        | some w => RowStep.emit w := rfl
  have hrow : ∀ w, mkRecord mapTempSnowSummary qd qt "1" "A" ["1 - A", "1", "2", "3", v, "x"]
      = some w →
      processRows mapTempSnowSummary qd qt (["1 - A", "1", "2", "3", v, "x"] :: rest)
        = w :: processRows mapTempSnowSummary qd qt rest := by
    intro w hmk
    have he : extractRow mapTempSnowSummary qd qt ["1 - A", "1", "2", "3", v, "x"]
        = RowStep.emit w := by
      rw [h₁]
      simp only [hmk]
    simp only [processRows, he]
  have hskip : mkRecord mapTempSnowSummary qd qt "1" "A" ["1 - A", "1", "2", "3", v, "x"] = none →
      processRows mapTempSnowSummary qd qt (["1 - A", "1", "2", "3", v, "x"] :: rest)
        = processRows mapTempSnowSummary qd qt rest := by
    intro hmk
    have he : extractRow mapTempSnowSummary qd qt ["1 - A", "1", "2", "3", v, "x"]
        = RowStep.skip := by
      rw [h₁]
      simp only [hmk]
    simp only [processRows, he]
  refine ⟨?_, ?_, ?_⟩
  · intro q hq hden
    have hs₁ : snowVal mapTempSnowSummary ["1 - A", "1", "2", "3", v, "x"]
        = some (some q.num) := by
      rw [hsv]
      simp only [hq, hden, if_true]
    refine hrow _ ?_
    rw [mkRecord]
    simp only [hs₁]
    rfl
  · intro q hq hden
    have hs₁ : snowVal mapTempSnowSummary ["1 - A", "1", "2", "3", v, "x"] = none := by
      rw [hsv]
      simp [hq, hden]
    refine hskip ?_
    rw [mkRecord]
    simp only [hs₁]
  · intro hq
    have hs₁ : snowVal mapTempSnowSummary ["1 - A", "1", "2", "3", v, "x"] = some none := by
      rw [hsv]
      simp only [hq]
    refine hrow _ ?_
    rw [mkRecord]
    simp only [hs₁]
    rfl

/-- C10 witness: a non-integral snow value ("0.5") skips only its row,
an integral one ("7") lands as the integer 7. -/
theorem C10_witness :
    processRows mapTempSnowSummary "2024-01-01" "12:00"
      [["1 - A", "1", "2", "3", "0.5", "x"]] = [] ∧
    processRows mapTempSnowSummary "2024-01-01" "12:00"
      [["1 - A", "1", "2", "3", "7", "x"]]
      = [WeatherData.mk "2024-01-01" "12:00" "1" "A" (some 1) (some 2) (some 3) none none
          none none none none none none none none none none (some 7)] := by
  constructor
  · exact ((C10_snow_depth "2024-01-01" "12:00" "0.5" []).2.1 (mkRat 1 2)
      (by decide) (by decide)).trans rfl
  · exact ((C10_snow_depth "2024-01-01" "12:00" "7" []).1 (mkRat 7 1)
      (by decide) (by decide)).trans (by rfl)

/-- Every month has at least one day. -/
theorem daysInMonth_pos (y m : Nat) : 0 < daysInMonth y m := by
  rw [daysInMonth]
  split
  · split <;> omega
  · split <;> omega

/-- The successor of a valid date is valid. -/
theorem valid_nextDay {d : Date} (h : d.Valid) : (nextDay d).Valid := by
  obtain ⟨h₁, h₂, h₃, h₄, h₅⟩ := h
  rw [nextDay]
  by_cases hd : d.day < daysInMonth d.year d.month
  · rw [if_pos hd]
    unfold Date.Valid
    dsimp only
    exact ⟨h₁, h₂, h₃, by omega, by omega⟩
  · rw [if_neg hd]
    by_cases hm : d.month < 12
    · rw [if_pos hm]
      unfold Date.Valid
      dsimp only
      exact ⟨h₁, by omega, by omega, le_refl 1, daysInMonth_pos _ _⟩
    · rw [if_neg hm]
      unfold Date.Valid
      dsimp only
      exact ⟨by omega, by omega, by omega, by omega, daysInMonth_pos _ _⟩

set_option maxHeartbeats 1000000 in
/-- One more year of day counting adds the length of that year. -/
theorem daysBeforeYear_succ (y : Nat) (hy : 1 ≤ y) :
    daysBeforeYear (y + 1) = daysBeforeYear y + (if isLeap y then 366 else 365) := by
  rw [daysBeforeYear, daysBeforeYear]
  by_cases h : isLeap y
  · rw [if_pos h]
    unfold isLeap at h
    omega
  · rw [if_neg h]
    unfold isLeap at h
    omega

/-- The calendar successor advances the ordinal by one. -/
theorem toOrdinal_nextDay {d : Date} (h : d.Valid) :
    toOrdinal (nextDay d) = toOrdinal d + 1 := by
  obtain ⟨h₁, h₂, h₃, h₄, h₅⟩ := h
  rw [nextDay]
  by_cases hd : d.day < daysInMonth d.year d.month
  · rw [if_pos hd]
    simp only [toOrdinal]
    omega
  · rw [if_neg hd]
    have hde : d.day = daysInMonth d.year d.month := by omega
    by_cases hm : d.month < 12
    · rw [if_pos hm]
      simp only [toOrdinal]
      obtain ⟨k, hk⟩ : ∃ k, d.month = k + 1 := ⟨d.month - 1, by omega⟩
      rw [hk] at hde ⊢
      simp only [Nat.add_sub_cancel]
      have hsucc : daysBeforeMonth d.year (k + 1)
          = daysBeforeMonth d.year k + daysInMonth d.year (k + 1) := rfl
      omega
    · rw [if_neg hm]
      have hm12 : d.month = 12 := by omega
      rw [hm12] at hde
      have hd31 : d.day = 31 := by
        rw [hde]
        rfl
      simp only [toOrdinal]
      rw [hm12, hd31]
      have h0 : daysBeforeMonth (d.year + 1) (1 - 1) = 0 := rfl
      have hexp : daysBeforeMonth d.year (12 - 1)
          = 31 + daysInMonth d.year 2 + 31 + 30 + 31 + 30 + 31 + 31 + 30 + 31 + 30 := rfl
      have h2 : daysInMonth d.year 2 = if isLeap d.year then 29 else 28 := rfl
      have hy := daysBeforeYear_succ d.year h₁
      by_cases hL : isLeap d.year
      · rw [if_pos hL] at hy h2
        omega
      · rw [if_neg hL] at hy h2
        omega

/-- Adding `n` days advances the ordinal by `n`. -/
theorem toOrdinal_addDays (n : Nat) :
    ∀ d : Date, d.Valid → toOrdinal (addDays n d) = toOrdinal d + n := by
  induction n with
  | zero => intro d _; rfl
  | succ k ih =>
    intro d h
    have : addDays (k + 1) d = addDays k (nextDay d) := rfl
    rw [this, ih (nextDay d) (valid_nextDay h), toOrdinal_nextDay h]
    omega

/-- Membership in the gap filter: in the range and not stored. -/
theorem mem_missing_filter (r : List Date) (existing : List String) (d : Date) :
    d ∈ r.filter (fun x => !(existing.contains (dateStr x))) ↔
      d ∈ r ∧ dateStr d ∉ existing := by
  simp [List.mem_filter, List.contains, List.elem_iff]

/-- C7: for a valid inclusive range (the end defaulting to the start,
giving a single-day range), the gap calculator returns exactly the range
days whose date string is not stored, in ascending calendar order — an
ordered, duplicate-free subset of the enumerated range. -/
theorem C7_missing_dates (startD : Date) (endOpt : Option Date) (existing : List String)
    (hs : startD.Valid)
    (hle : toOrdinal startD ≤ toOrdinal (endOpt.getD startD)) :
    ∃ range missing : List Date,
      create_date_range startD endOpt = Except.ok range ∧
      get_missing_dates startD endOpt existing = Except.ok missing ∧
      missing = range.filter (fun d => !(existing.contains (dateStr d))) ∧
      missing.Sublist range ∧
      missing.Pairwise (fun a b => toOrdinal a < toOrdinal b) ∧
      (∀ d, d ∈ missing ↔ d ∈ range ∧ dateStr d ∉ existing) := by
  cases endOpt with
  | none =>
    refine ⟨[startD], [startD].filter (fun d => !(existing.contains (dateStr d))),
      rfl, rfl, rfl, List.filter_sublist _, ?_, fun d => mem_missing_filter _ _ _⟩
    exact List.Pairwise.filter _ (List.pairwise_singleton _ _)
  | some endD =>
    have hle' : ¬ toOrdinal endD < toOrdinal startD := not_lt.mpr (by simpa using hle)
    refine ⟨(List.range (toOrdinal endD - toOrdinal startD + 1)).map (fun x => addDays x startD),
      ((List.range (toOrdinal endD - toOrdinal startD + 1)).map
        (fun x => addDays x startD)).filter (fun d => !(existing.contains (dateStr d))),
      ?_, ?_, rfl, List.filter_sublist _, ?_, fun d => mem_missing_filter _ _ _⟩
    · rw [create_date_range, if_neg hle']
    · rw [get_missing_dates, create_date_range, if_neg hle']
    · apply List.Pairwise.filter
      rw [List.pairwise_map]
      refine (List.pairwise_lt_range _).imp ?_
      intro a b hab
      rw [toOrdinal_addDays a startD hs, toOrdinal_addDays b startD hs]
      omega

/-- C7 witness: the spec's example — range 2024-01-01..2024-01-05 with
stored dates 01-02 and 01-04 gives 01-01, 01-03, 01-05 in order. -/
theorem C7_witness :
    get_missing_dates ⟨2024, 1, 1⟩ (some ⟨2024, 1, 5⟩) ["2024-01-02", "2024-01-04"]
      = Except.ok [⟨2024, 1, 1⟩, ⟨2024, 1, 3⟩, ⟨2024, 1, 5⟩] := by
  obtain ⟨r, m, hc, hg, hfil, hsub, hpw, hmem⟩ :=
    C7_missing_dates ⟨2024, 1, 1⟩ (some ⟨2024, 1, 5⟩) ["2024-01-02", "2024-01-04"]
      (by decide) (by decide)
  have hr : r = [⟨2024, 1, 1⟩, ⟨2024, 1, 2⟩, ⟨2024, 1, 3⟩, ⟨2024, 1, 4⟩, ⟨2024, 1, 5⟩] := by
    have hcc : create_date_range ⟨2024, 1, 1⟩ (some ⟨2024, 1, 5⟩)
        = Except.ok [⟨2024, 1, 1⟩, ⟨2024, 1, 2⟩, ⟨2024, 1, 3⟩, ⟨2024, 1, 4⟩, ⟨2024, 1, 5⟩] := by
      rfl
    rw [hcc] at hc
    exact (Except.ok.inj hc).symm
  rw [hg, hfil, hr]
  rfl

end Ogimet
